import Mathlib

/-!
Shallow embedding of the billing-period aggregation core of `pks_api.py`
(class `InvoicingPeriod`).  Python floats are modelled by rationals plus an
explicit NaN value; a getter call is modelled by a `PyResult`, which is either
a returned value, the Python `None` (the implicit return at the end of a
getter body), a raised exception (`TypeError` from arithmetic/comparison on
`None`), or an unmodelled network fetch (`io`, only reachable through
`vat_percentage`).  The derived-price getters of the source contain no
assignment statements, so each is a pure function of the period.
-/

namespace PKS

/-- A Python float as it occurs in the aggregation code: a real number
(modelled by a rational; every division in the claims is exact) or NaN.
`numpy`/`pandas` float division yields NaN for 0/0; nonzero/0 yields ±infinity,
which this embedding also maps to `nan` (no claim distinguishes the two, and
the only division with a possibly-zero denominator is `weighted_spot_price`,
where numerator and denominator vanish together for the empty table). -/
inductive PyVal where
  | num : ℚ → PyVal
  | nan : PyVal
deriving DecidableEq

/-- Python float addition: NaN propagates. -/
def PyVal.add : PyVal → PyVal → PyVal
  | .num a, .num b => .num (a + b)
  | _, _ => .nan

/-- Python float multiplication: NaN propagates. -/
def PyVal.mul : PyVal → PyVal → PyVal
  | .num a, .num b => .num (a * b)
  | _, _ => .nan

/-- Python float division: NaN propagates, division by zero gives NaN
(see the comment on `PyVal`). -/
def PyVal.div : PyVal → PyVal → PyVal
  | .num a, .num b => if b = 0 then .nan else .num (a / b)
  | _, _ => .nan

/-- Python truthiness of a float: `0.0` is falsy, every other float
(including NaN) is truthy. -/
def PyVal.truthy : PyVal → Bool
  | .num a => a ≠ 0
  | .nan => true

/-- Python `x > 0` on a float: NaN compares false. -/
def PyVal.gtZero : PyVal → Bool
  | .num a => 0 < a
  | .nan => false

/-- Outcome of calling a getter: a returned float, a returned `None`
(falling off the end of the body), a raised exception (`TypeError` from
using `None` in arithmetic or comparison), or a network fetch the embedding
leaves abstract. -/
inductive PyResult where
  | val : PyVal → PyResult
  | pynone : PyResult
  | error : PyResult
  | io : PyResult
deriving DecidableEq

/-- Python `+` applied to two getter results: arithmetic on `None` raises
`TypeError`; a raised exception propagates. -/
def PyResult.add : PyResult → PyResult → PyResult
  | .val a, .val b => .val (a.add b)
  | .io, _ => .io
  | _, .io => .io
  | _, _ => .error

/-- Python `*` applied to two getter results. -/
def PyResult.mul : PyResult → PyResult → PyResult
  | .val a, .val b => .val (a.mul b)
  | .io, _ => .io
  | _, .io => .io
  | _, _ => .error

/-- Python `/` applied to two getter results. -/
def PyResult.div : PyResult → PyResult → PyResult
  | .val a, .val b => .val (a.div b)
  | .io, _ => .io
  | _, .io => .io
  | _, _ => .error

/-- One row of the `hourly_data` DataFrame.  The timestamp is omitted:
no aggregation formula reads it. -/
structure HourlyRecord where
  consumption : ℚ
  fixedConsumption : ℚ
  openConsumption : ℚ
  spotPrice : ℚ
  fixedPrice : ℚ
  profilePrice : ℚ
  deliveryPrice : ℚ
deriving DecidableEq

/-- Column sum, `df[col].sum()`: pandas gives `0` for an empty column. -/
def colSum (f : HourlyRecord → ℚ) (rows : List HourlyRecord) : ℚ :=
  (rows.map f).sum

/-- Column mean, `df[col].mean()`: pandas gives NaN for an empty column. -/
def colMean (f : HourlyRecord → ℚ) (rows : List HourlyRecord) : PyVal :=
  if rows.length = 0 then .nan
  else .num ((rows.map f).sum / (rows.length : ℚ))

/-- The aggregation-relevant state of an `InvoicingPeriod`: the hourly-data
table (`none` until `get_hourly_data` has run; a DataFrame is modelled as its
list of rows) and the backing cache fields set to `None` in `__init__`
(a cache field, if written at all, would hold a Python float, hence
`Option PyVal`).  Identity, description and timestamp fields are omitted:
no aggregation formula reads them. -/
structure InvoicingPeriod where
  hourly_data : Option (List HourlyRecord)
  _average_spot_price : Option PyVal
  _average_fixed_price : Option PyVal
  _profile_price : Option PyVal
  _delivery_price : Option PyVal
  _weighted_spot_price : Option PyVal
  _total_spot_price : Option PyVal
  _total_weighted_spot_price : Option PyVal
  _total_fixed_price : Option PyVal
  _total_spot_cost : Option PyVal
  _total_fixed_cost : Option PyVal
  _total_weighted_spot_cost : Option PyVal
  _total_consumption : Option PyVal
  _total_fixed_consumption : Option PyVal
  _total_open_consumption : Option PyVal
  _vat_percentage : Option PyVal
deriving DecidableEq

namespace InvoicingPeriod

/-- The getter prologue `if self._x: return self._x`: return the cache field
when it is truthy, otherwise fall through to the given body. -/
def cached (c : Option PyVal) (body : PyResult) : PyResult :=
  match c with
  | some v => if v.truthy then .val v else body
  | none => body

/-- A period as `__init__` leaves it, with the hourly-data table attached
(or not) by `get_hourly_data`: every cache field is `None`. -/
def freshPeriod (hd : Option (List HourlyRecord)) : InvoicingPeriod where
  hourly_data := hd
  _average_spot_price := none
  _average_fixed_price := none
  _profile_price := none
  _delivery_price := none
  _weighted_spot_price := none
  _total_spot_price := none
  _total_weighted_spot_price := none
  _total_fixed_price := none
  _total_spot_cost := none
  _total_fixed_cost := none
  _total_weighted_spot_cost := none
  _total_consumption := none
  _total_fixed_consumption := none
  _total_open_consumption := none
  _vat_percentage := none

/-- Source lines 258-268. -/
def total_consumption (p : InvoicingPeriod) : PyResult :=
  cached p._total_consumption <|
    match p.hourly_data with
    | some rows => .val (.num (colSum HourlyRecord.consumption rows * 1000))
    | none => .pynone

/-- Source lines 270-280. -/
def total_fixed_consumption (p : InvoicingPeriod) : PyResult :=
  cached p._total_fixed_consumption <|
    match p.hourly_data with
    | some rows => .val (.num (colSum HourlyRecord.fixedConsumption rows * 1000))
    | none => .pynone

/-- Source lines 283-293. -/
def total_open_consumption (p : InvoicingPeriod) : PyResult :=
  cached p._total_open_consumption <|
    match p.hourly_data with
    | some rows => .val (.num (colSum HourlyRecord.openConsumption rows * 1000))
    | none => .pynone

/-- Source lines 364-369.  Note the source checks and returns
`self._average_fixed_price`, not `self._average_spot_price`. -/
def average_spot_price (p : InvoicingPeriod) : PyResult :=
  cached p._average_fixed_price <|
    match p.hourly_data with
    | some rows => .val ((colMean HourlyRecord.spotPrice rows).div (.num 10))
    | none => .pynone

/-- Source lines 371-376. -/
def average_fixed_price (p : InvoicingPeriod) : PyResult :=
  cached p._average_fixed_price <|
    match p.hourly_data with
    | some rows => .val ((colMean HourlyRecord.fixedPrice rows).div (.num 10))
    | none => .pynone

/-- Source lines 378-383. -/
def profile_price (p : InvoicingPeriod) : PyResult :=
  cached p._profile_price <|
    match p.hourly_data with
    | some rows => .val ((colMean HourlyRecord.profilePrice rows).div (.num 10))
    | none => .pynone

/-- Source lines 385-390. -/
def delivery_price (p : InvoicingPeriod) : PyResult :=
  cached p._delivery_price <|
    match p.hourly_data with
    | some rows => .val ((colMean HourlyRecord.deliveryPrice rows).div (.num 10))
    | none => .pynone

/-- Source lines 392-399. -/
def weighted_spot_price (p : InvoicingPeriod) : PyResult :=
  cached p._weighted_spot_price <|
    match p.hourly_data with
    | some rows =>
      let total_cost := colSum (fun r => r.spotPrice * r.consumption) rows
      let tc := colSum HourlyRecord.consumption rows
      .val (((PyVal.num total_cost).div (.num tc)).div (.num 10))
    | none => .pynone

/-- Source lines 295-304.  Note the source checks and returns
`self._total_spot_price`, not `self._total_weighted_spot_price`. -/
def total_weighted_spot_price (p : InvoicingPeriod) : PyResult :=
  cached p._total_spot_price <|
    ((p.weighted_spot_price.add p.delivery_price).add p.profile_price)

/-- Source lines 306-315. -/
def total_spot_price (p : InvoicingPeriod) : PyResult :=
  cached p._total_spot_price <|
    ((p.average_spot_price.add p.delivery_price).add p.profile_price)

/-- Source lines 317-329.  `self.average_fixed_price > 0` raises `TypeError`
when the getter returned `None`. -/
def total_fixed_price (p : InvoicingPeriod) : PyResult :=
  cached p._total_fixed_price <|
    match p.average_fixed_price with
    | .val v =>
      if v.gtZero then ((p.average_fixed_price.add p.delivery_price).add p.profile_price)
      else .val (.num 0)
    | .pynone => .error
    | .error => .error
    | .io => .io

/-- Source lines 331-340. -/
def total_spot_cost (p : InvoicingPeriod) : PyResult :=
  cached p._total_spot_cost <|
    ((p.total_spot_price.mul p.total_consumption).div (.val (.num 100)))

/-- Source lines 342-351. -/
def total_fixed_cost (p : InvoicingPeriod) : PyResult :=
  cached p._total_fixed_cost <|
    ((p.total_fixed_price.mul p.total_consumption).div (.val (.num 100)))

/-- Source lines 353-362. -/
def total_weighted_spot_cost (p : InvoicingPeriod) : PyResult :=
  cached p._total_weighted_spot_cost <|
    ((p.total_weighted_spot_price.mul p.total_consumption).div (.val (.num 100)))

/-- Source lines 238-256: the cache when truthy, otherwise an HTTP fetch
that this embedding leaves abstract. -/
def vat_percentage (p : InvoicingPeriod) : PyResult :=
  cached p._vat_percentage .io

/-- Source lines 401-402: `price * (1 + self.vat_percentage / 100)`. -/
def get_with_vat (p : InvoicingPeriod) (price : PyVal) : PyResult :=
  (PyResult.val price).mul
    ((PyResult.val (.num 1)).add ((p.vat_percentage).div (.val (.num 100))))

end InvoicingPeriod

end PKS

namespace PKS

open InvoicingPeriod

/-- The first record of the spec scenario: consumption 1.0, spotPrice 100,
profilePrice 10, deliveryPrice 20 (unspecified columns set to 0). -/
def recA : HourlyRecord := ⟨1, 0, 0, 100, 0, 10, 20⟩

/-- The second record of the spec scenario: consumption 3.0, spotPrice 200,
profilePrice 10, deliveryPrice 20 (unspecified columns set to 0). -/
def recB : HourlyRecord := ⟨3, 0, 0, 200, 0, 10, 20⟩

/-- The spec scenario: a fresh period holding exactly `recA` and `recB`. -/
def pScenario : InvoicingPeriod := freshPeriod (some [recA, recB])

/-- C1: on the two-record scenario table, the accessors return
averageSpotPrice 15, weightedSpotPrice 17.5, totalConsumption 4000,
totalSpotPrice 18 and totalSpotCost 720. -/
theorem C1_scenario_values :
    pScenario.average_spot_price = .val (.num 15) ∧
    pScenario.weighted_spot_price = .val (.num 17.5) ∧
    pScenario.total_consumption = .val (.num 4000) ∧
    pScenario.total_spot_price = .val (.num 18) ∧
    pScenario.total_spot_cost = .val (.num 720) := by
  refine ⟨?_, ?_, ?_, ?_, ?_⟩ <;>
    simp [pScenario, recA, recB, average_spot_price, weighted_spot_price, total_consumption,
      total_spot_price, total_spot_cost, delivery_price, profile_price, cached, freshPeriod,
      colMean, colSum, PyVal.div, PyVal.add, PyVal.mul, PyResult.add, PyResult.mul,
      PyResult.div] <;>
    norm_num

/-- C2 counterexample: with a present but empty hourly table,
`total_consumption` returns 0 (the claim says never zero); with an absent
table, `total_spot_price` raises `TypeError` (the claim says never an
exception). -/
theorem C2_counterexample :
    (freshPeriod (some [])).total_consumption = .val (.num 0) ∧
    (freshPeriod none).total_spot_price = .error := by
  constructor <;>
    simp [total_consumption, total_spot_price, average_spot_price, delivery_price,
      profile_price, cached, freshPeriod, colSum, PyResult.add]

/-- C2 amended: with an absent table the leaf accessors return `None` while
every composite accessor raises `TypeError`; with a present but empty table
the consumption totals and `total_fixed_price`/`total_fixed_cost` return 0
and all other accessors return NaN. -/
theorem C2_amended_boundary :
    (freshPeriod none).total_consumption = .pynone ∧
    (freshPeriod none).total_fixed_consumption = .pynone ∧
    (freshPeriod none).total_open_consumption = .pynone ∧
    (freshPeriod none).average_spot_price = .pynone ∧
    (freshPeriod none).average_fixed_price = .pynone ∧
    (freshPeriod none).profile_price = .pynone ∧
    (freshPeriod none).delivery_price = .pynone ∧
    (freshPeriod none).weighted_spot_price = .pynone ∧
    (freshPeriod none).total_spot_price = .error ∧
    (freshPeriod none).total_weighted_spot_price = .error ∧
    (freshPeriod none).total_fixed_price = .error ∧
    (freshPeriod none).total_spot_cost = .error ∧
    (freshPeriod none).total_fixed_cost = .error ∧
    (freshPeriod none).total_weighted_spot_cost = .error ∧
    (freshPeriod (some [])).total_consumption = .val (.num 0) ∧
    (freshPeriod (some [])).total_fixed_consumption = .val (.num 0) ∧
    (freshPeriod (some [])).total_open_consumption = .val (.num 0) ∧
    (freshPeriod (some [])).average_spot_price = .val .nan ∧
    (freshPeriod (some [])).average_fixed_price = .val .nan ∧
    (freshPeriod (some [])).profile_price = .val .nan ∧
    (freshPeriod (some [])).delivery_price = .val .nan ∧
    (freshPeriod (some [])).weighted_spot_price = .val .nan ∧
    (freshPeriod (some [])).total_spot_price = .val .nan ∧
    (freshPeriod (some [])).total_weighted_spot_price = .val .nan ∧
    (freshPeriod (some [])).total_fixed_price = .val (.num 0) ∧
    (freshPeriod (some [])).total_spot_cost = .val .nan ∧
    (freshPeriod (some [])).total_fixed_cost = .val (.num 0) ∧
    (freshPeriod (some [])).total_weighted_spot_cost = .val .nan := by
  simp [total_consumption, total_fixed_consumption, total_open_consumption,
    average_spot_price, average_fixed_price, profile_price, delivery_price,
    weighted_spot_price, total_spot_price, total_weighted_spot_price, total_fixed_price,
    total_spot_cost, total_fixed_cost, total_weighted_spot_cost, cached, freshPeriod,
    colSum, colMean, PyVal.div, PyVal.add, PyVal.mul, PyVal.gtZero, PyResult.add,
    PyResult.mul, PyResult.div]

/-- A one-row table with consumption 1.0. -/
def recOne : HourlyRecord := ⟨1, 0, 0, 50, 0, 10, 20⟩

/-- A one-row table with consumption 2.0. -/
def recTwo : HourlyRecord := ⟨2, 0, 0, 50, 0, 10, 20⟩

/-- C3: the derived-price getters never assign their cache fields, so nothing
is memoized: reading `total_consumption` leaves `_total_consumption` at
`None`, and after the hourly table is replaced a second read recomputes from
the new table (2000) instead of returning the first result (1000). -/
theorem C3_code_eval :
    (freshPeriod (some [recOne])).total_consumption = .val (.num 1000) ∧
    ({freshPeriod (some [recOne]) with
        hourly_data := some [recTwo]}).total_consumption = .val (.num 2000) ∧
    ({freshPeriod (some [recOne]) with
        hourly_data := some [recTwo]})._total_consumption = none := by
  refine ⟨?_, ?_, rfl⟩ <;>
    norm_num [total_consumption, cached, freshPeriod, colSum, recOne, recTwo]

/-- C4: when `_average_fixed_price` holds a nonzero number, `average_spot_price`
returns that value whatever the hourly table holds, and the value of the
`_average_spot_price` field never affects `average_spot_price`. -/
theorem C4_average_spot_price_uses_fixed_cache (p : InvoicingPeriod) (v : ℚ) (hv : v ≠ 0)
    (h : p._average_fixed_price = some (.num v)) :
    (∀ hd : Option (List HourlyRecord),
      ({p with hourly_data := hd}).average_spot_price = .val (.num v)) ∧
    ∀ (q : InvoicingPeriod) (w : Option PyVal),
      ({q with _average_spot_price := w}).average_spot_price = q.average_spot_price := by
  constructor
  · intro hd
    simp [average_spot_price, cached, h, PyVal.truthy, hv]
  · intro q w
    rfl

/-- Witness period for C4: the spot-price mean of its table is 15, but the
fixed-price cache field is set to 5. -/
def pC4 : InvoicingPeriod :=
  { freshPeriod (some [recA, recB]) with _average_fixed_price := some (.num 5) }

/-- C4 witness: on `pC4` the spot-price accessor returns the fixed-price
cache value 5, not the spot mean 15. -/
theorem C4_witness : pC4.average_spot_price = .val (.num 5) :=
  (C4_average_spot_price_uses_fixed_cache pC4 5 (by norm_num) rfl).1 pC4.hourly_data

/-- C5: for a fresh period over a non-empty table, `total_spot_price` is
exactly the sum of `average_spot_price`, `delivery_price` and
`profile_price`. -/
theorem C5_total_spot_price_decomposition (rows : List HourlyRecord) (hne : rows ≠ []) :
    ∃ a d pr : ℚ,
      (freshPeriod (some rows)).average_spot_price = .val (.num a) ∧
      (freshPeriod (some rows)).delivery_price = .val (.num d) ∧
      (freshPeriod (some rows)).profile_price = .val (.num pr) ∧
      (freshPeriod (some rows)).total_spot_price = .val (.num (a + d + pr)) := by
  have hlen : rows.length ≠ 0 := fun h0 => hne (List.length_eq_zero.mp h0)
  refine ⟨(rows.map HourlyRecord.spotPrice).sum / (rows.length : ℚ) / 10,
    (rows.map HourlyRecord.deliveryPrice).sum / (rows.length : ℚ) / 10,
    (rows.map HourlyRecord.profilePrice).sum / (rows.length : ℚ) / 10, ?_, ?_, ?_, ?_⟩ <;>
    simp [average_spot_price, delivery_price, profile_price, total_spot_price, cached,
      freshPeriod, colMean, PyVal.div, PyVal.add, PyResult.add, hlen]

/-- C5 witness: the decomposition at the concrete two-record table. -/
theorem C5_witness :
    ([recA, recB] ≠ ([] : List HourlyRecord)) ∧
    ∃ a d pr : ℚ,
      (freshPeriod (some [recA, recB])).average_spot_price = .val (.num a) ∧
      (freshPeriod (some [recA, recB])).delivery_price = .val (.num d) ∧
      (freshPeriod (some [recA, recB])).profile_price = .val (.num pr) ∧
      (freshPeriod (some [recA, recB])).total_spot_price = .val (.num (a + d + pr)) :=
  ⟨by simp, C5_total_spot_price_decomposition [recA, recB] (by simp)⟩

/-- C6: for a fresh period over a non-empty table, `total_spot_cost` is
exactly `total_spot_price * total_consumption / 100`. -/
theorem C6_total_spot_cost_formula (rows : List HourlyRecord) (hne : rows ≠ []) :
    ∃ tsp tc : ℚ,
      (freshPeriod (some rows)).total_spot_price = .val (.num tsp) ∧
      (freshPeriod (some rows)).total_consumption = .val (.num tc) ∧
      (freshPeriod (some rows)).total_spot_cost = .val (.num (tsp * tc / 100)) := by
  have hlen : rows.length ≠ 0 := fun h0 => hne (List.length_eq_zero.mp h0)
  refine ⟨(rows.map HourlyRecord.spotPrice).sum / (rows.length : ℚ) / 10 +
      (rows.map HourlyRecord.deliveryPrice).sum / (rows.length : ℚ) / 10 +
      (rows.map HourlyRecord.profilePrice).sum / (rows.length : ℚ) / 10,
    colSum HourlyRecord.consumption rows * 1000, ?_, ?_, ?_⟩ <;>
    simp [total_spot_price, average_spot_price, delivery_price, profile_price,
      total_consumption, total_spot_cost, cached, freshPeriod, colMean, colSum,
      PyVal.div, PyVal.add, PyVal.mul, PyResult.add, PyResult.mul, PyResult.div, hlen]

/-- C6 witness: the cost formula at the concrete two-record table. -/
theorem C6_witness :
    ([recA, recB] ≠ ([] : List HourlyRecord)) ∧
    ∃ tsp tc : ℚ,
      (freshPeriod (some [recA, recB])).total_spot_price = .val (.num tsp) ∧
      (freshPeriod (some [recA, recB])).total_consumption = .val (.num tc) ∧
      (freshPeriod (some [recA, recB])).total_spot_cost = .val (.num (tsp * tc / 100)) :=
  ⟨by simp, C6_total_spot_cost_formula [recA, recB] (by simp)⟩

lemma colSum_consumption_const (rows : List HourlyRecord) (c : ℚ)
    (h : ∀ r ∈ rows, r.consumption = c) :
    colSum HourlyRecord.consumption rows = rows.length * c := by
  induction rows with
  | nil => simp [colSum]
  | cons a t ih =>
    have ha : a.consumption = c := h a (List.mem_cons_self a t)
    have ht : ∀ r ∈ t, r.consumption = c := fun r hr => h r (List.mem_cons_of_mem a hr)
    simp only [colSum, List.map_cons, List.sum_cons, List.length_cons] at ih ⊢
    rw [ha, ih ht]
    push_cast
    ring

lemma colSum_spotMul_const (rows : List HourlyRecord) (c : ℚ)
    (h : ∀ r ∈ rows, r.consumption = c) :
    colSum (fun r => r.spotPrice * r.consumption) rows =
      colSum HourlyRecord.spotPrice rows * c := by
  induction rows with
  | nil => simp [colSum]
  | cons a t ih =>
    have ha : a.consumption = c := h a (List.mem_cons_self a t)
    have ht : ∀ r ∈ t, r.consumption = c := fun r hr => h r (List.mem_cons_of_mem a hr)
    simp only [colSum, List.map_cons, List.sum_cons] at ih ⊢
    rw [ha, ih ht]
    ring

/-- C7: for a fresh period over a non-empty table with positive total
consumption, `weighted_spot_price` is the consumption-weighted spot mean
divided by 10, and when all rows share one consumption value it coincides
with `average_spot_price`. -/
theorem C7_weighted_spot_price_formula (rows : List HourlyRecord) (hne : rows ≠ [])
    (hpos : 0 < colSum HourlyRecord.consumption rows) :
    (freshPeriod (some rows)).weighted_spot_price =
      .val (.num (colSum (fun r => r.spotPrice * r.consumption) rows /
        colSum HourlyRecord.consumption rows / 10)) ∧
    ∀ c : ℚ, (∀ r ∈ rows, r.consumption = c) →
      (freshPeriod (some rows)).weighted_spot_price =
        (freshPeriod (some rows)).average_spot_price := by
  have htc : colSum HourlyRecord.consumption rows ≠ 0 := ne_of_gt hpos
  have hlen : rows.length ≠ 0 := fun h0 => hne (List.length_eq_zero.mp h0)
  have hlenQ : (rows.length : ℚ) ≠ 0 := Nat.cast_ne_zero.mpr hlen
  have hw : (freshPeriod (some rows)).weighted_spot_price =
      .val (.num (colSum (fun r => r.spotPrice * r.consumption) rows /
        colSum HourlyRecord.consumption rows / 10)) := by
    simp [weighted_spot_price, cached, freshPeriod, PyVal.div, htc]
  refine ⟨hw, ?_⟩
  intro c hc
  have hc0 : c ≠ 0 := by
    intro h0
    rw [colSum_consumption_const rows c hc, h0, mul_zero] at hpos
    exact lt_irrefl 0 hpos
  have havg : (freshPeriod (some rows)).average_spot_price =
      .val (.num ((rows.map HourlyRecord.spotPrice).sum / (rows.length : ℚ) / 10)) := by
    simp [average_spot_price, cached, freshPeriod, colMean, PyVal.div, hlen]
  rw [hw, havg]
  simp only [PyResult.val.injEq, PyVal.num.injEq]
  rw [colSum_spotMul_const rows c hc, colSum_consumption_const rows c hc]
  simp only [colSum]
  field_simp
  ring

/-- A record with consumption 2.0 and spotPrice 100. -/
def recE : HourlyRecord := ⟨2, 0, 0, 100, 0, 10, 20⟩

/-- A record with consumption 2.0 and spotPrice 200. -/
def recF : HourlyRecord := ⟨2, 0, 0, 200, 0, 10, 20⟩

/-- C7 witness: on a table whose rows share the consumption value 2, the
weighted spot price coincides with the average spot price. -/
theorem C7_witness :
    ([recE, recF] ≠ ([] : List HourlyRecord)) ∧
    0 < colSum HourlyRecord.consumption [recE, recF] ∧
    (freshPeriod (some [recE, recF])).weighted_spot_price =
      (freshPeriod (some [recE, recF])).average_spot_price :=
  ⟨by simp, by norm_num [colSum, recE, recF],
    (C7_weighted_spot_price_formula [recE, recF] (by simp)
      (by norm_num [colSum, recE, recF])).2 2 (by simp [recE, recF])⟩

/-- C8 counterexample: with the hourly table absent, `average_fixed_price`
is `None` ("unavailable"), yet `total_fixed_price` raises `TypeError`
(`None > 0`) instead of returning 0. -/
theorem C8_counterexample :
    (freshPeriod none).average_fixed_price = .pynone ∧
    (freshPeriod none).total_fixed_price = .error ∧
    (freshPeriod none).total_fixed_price ≠ .val (.num 0) := by
  refine ⟨?_, ?_, ?_⟩ <;>
    simp [average_fixed_price, total_fixed_price, cached, freshPeriod]

/-- C8 amended: for a fresh period, whenever `average_fixed_price` evaluates
to a float that is not strictly positive (a number ≤ 0, or NaN),
`total_fixed_price` returns 0; but when `average_fixed_price` is `None` (the
table is absent), `total_fixed_price` raises `TypeError` instead. -/
theorem C8_total_fixed_price_amended (rows : List HourlyRecord) (v : PyVal)
    (hafp : (freshPeriod (some rows)).average_fixed_price = .val v)
    (hng : v.gtZero = false) :
    (freshPeriod (some rows)).total_fixed_price = .val (.num 0) ∧
    (freshPeriod none).total_fixed_price = .error := by
  constructor
  · have hc : (freshPeriod (some rows))._total_fixed_price = none := rfl
    simp [total_fixed_price, cached, hc, hafp, hng]
  · simp [total_fixed_price, average_fixed_price, cached, freshPeriod]

/-- C8 witness: the one-record table of `recA` has fixed-price mean 0, which
is not strictly positive, so `total_fixed_price` is 0. -/
theorem C8_witness :
    (freshPeriod (some [recA])).average_fixed_price = .val (.num 0) ∧
    (freshPeriod (some [recA])).total_fixed_price = .val (.num 0) := by
  have hafp : (freshPeriod (some [recA])).average_fixed_price = .val (.num 0) := by
    norm_num [average_fixed_price, cached, freshPeriod, colMean, PyVal.div, recA]
  exact ⟨hafp,
    (C8_total_fixed_price_amended [recA] (.num 0) hafp (by norm_num [PyVal.gtZero])).1⟩

/-- C9: when `_total_spot_price` holds a nonzero number,
`total_weighted_spot_price` and `total_spot_price` both return that value,
and the `_total_weighted_spot_price` field never affects
`total_weighted_spot_price`. -/
theorem C9_total_weighted_uses_spot_cache (p : InvoicingPeriod) (v : ℚ) (hv : v ≠ 0)
    (h : p._total_spot_price = some (.num v)) :
    p.total_weighted_spot_price = .val (.num v) ∧
    p.total_spot_price = .val (.num v) ∧
    ∀ (q : InvoicingPeriod) (w : Option PyVal),
      ({q with _total_weighted_spot_price := w}).total_weighted_spot_price =
        q.total_weighted_spot_price := by
  refine ⟨?_, ?_, fun q w => rfl⟩ <;>
    simp [total_weighted_spot_price, total_spot_price, cached, h, PyVal.truthy, hv]

/-- Witness period for C9: `_total_spot_price` is 7 while
`_total_weighted_spot_price` is 3. -/
def pC9 : InvoicingPeriod :=
  { freshPeriod none with
      _total_spot_price := some (.num 7)
      _total_weighted_spot_price := some (.num 3) }

/-- C9 witness: on `pC9` both total-price accessors return the
`_total_spot_price` value 7; the weighted cache value 3 is ignored. -/
theorem C9_witness :
    pC9.total_weighted_spot_price = .val (.num 7) ∧
    pC9.total_spot_price = .val (.num 7) :=
  ⟨(C9_total_weighted_uses_spot_cache pC9 7 (by norm_num) rfl).1,
    (C9_total_weighted_uses_spot_cache pC9 7 (by norm_num) rfl).2.1⟩

/-- C10: when the VAT cache holds a nonzero number v, `get_with_vat` scales
any price by `1 + v / 100`; with v = 24 the price 10 becomes 12.4. -/
theorem C10_get_with_vat_formula (p : InvoicingPeriod) (v : ℚ) (hv : v ≠ 0)
    (h : p._vat_percentage = some (.num v)) :
    (∀ price : ℚ, p.get_with_vat (.num price) = .val (.num (price * (1 + v / 100)))) ∧
    (v = 24 → p.get_with_vat (.num 10) = .val (.num 12.4)) := by
  have hvat : p.vat_percentage = .val (.num v) := by
    simp [vat_percentage, cached, h, PyVal.truthy, hv]
  have hall : ∀ price : ℚ, p.get_with_vat (.num price) = .val (.num (price * (1 + v / 100))) := by
    intro price
    simp [get_with_vat, hvat, PyResult.div, PyResult.add, PyResult.mul,
      PyVal.div, PyVal.add, PyVal.mul]
  refine ⟨hall, fun h24 => ?_⟩
  rw [hall 10, h24]
  norm_num

/-- Witness period for C10: VAT percentage 24 is cached. -/
def pC10 : InvoicingPeriod := { freshPeriod none with _vat_percentage := some (.num 24) }

/-- C10 witness: with VAT 24, the price 10 becomes 12.4. -/
theorem C10_witness : pC10.get_with_vat (.num 10) = .val (.num 12.4) :=
  (C10_get_with_vat_formula pC10 24 (by norm_num) rfl).2 rfl

end PKS
